import Mathlib

/-!
Shallow embedding of the email-drip-campaign service (`src/main.py`).

The repository is a FastAPI application: a pydantic data model
(Contact / Account / CampaignRequest and the response types), a nested
generation loop (`generate_email_content`, `generate_campaign`,
`generate_campaigns`) that issues one external Cohere call per
(account, email step, tone) and wraps failures in HTTPException
details, a CSV flattening endpoint (`export_campaigns_csv`) and a
health endpoint (`health_check`).

Modelling decisions:
* The external generation service together with the `eval`-based parse
  of its text output (`client.generate` + `eval(...)` + the three key
  accesses, src/main.py lines 104-117) is modelled as an oracle
  `Svc : String → Except String EmailData`: prompt in, either the three
  parsed fields or the Python exception's string `str(e)` out.  The
  repository's own code around that call (the tone loop, the variant
  collection, every `except` wrapper and its message) is embedded
  faithfully.
* Raising `HTTPException(status_code=500, detail=d)` is modelled as
  `Except.error d`; catching such an exception `e` and reading `str(e)`
  yields `"500: " ++ d` (starlette's `HTTPException.__str__`), embedded
  as `strHTTPExc`.
* `random.choice(["A", "B"])` (line 131) is modelled by a caller-chosen
  assignment function `rnd`; one value per contact index.
* Each generation function also returns the list of prompts it sent to
  the external service, in call order, so that call-count and
  call-order properties can be stated.
* pydantic validation of the declared `Field` constraints runs before
  the endpoint body; it is embedded as the boolean `CampaignRequest.validB`
  and a gate `postGenerateCampaigns`.  `EmailStr` validation is performed
  by pydantic's email machinery, outside this repository, and is kept
  abstract as a parameter `emailOk`.
* Python `int` is `Int`; `range(n)` is `List.range n.toNat`, which agrees
  with Python for negative `n` as well (both are empty).
-/

/-- `class Contact(BaseModel)` (src/main.py lines 20-24). -/
structure Contact where
  name : String
  email : String
  job_title : String
  group : String
deriving DecidableEq, Repr

/-- `class Account(BaseModel)` (src/main.py lines 26-36). -/
structure Account where
  account_name : String
  industry : String
  pain_points : List String
  contacts : List Contact
  campaign_objective : String
  interest : String
  tone : String
  language : String
deriving DecidableEq, Repr

/-- `class EmailVariant(BaseModel)` (src/main.py lines 38-41). -/
structure EmailVariant where
  subject : String
  body : String
  call_to_action : String
deriving DecidableEq, Repr

/-- `class Email(BaseModel)` (src/main.py lines 43-44). -/
structure Email where
  variants : List EmailVariant
deriving DecidableEq, Repr

/-- `class Campaign(BaseModel)` (src/main.py lines 46-48). -/
structure Campaign where
  account_name : String
  emails : List Email
deriving DecidableEq, Repr

/-- `class CampaignRequest(BaseModel)` (src/main.py lines 50-52). -/
structure CampaignRequest where
  accounts : List Account
  number_of_emails : Int
deriving DecidableEq, Repr

/-- `class CampaignResponse(BaseModel)` (src/main.py lines 54-55). -/
structure CampaignResponse where
  campaigns : List Campaign
deriving DecidableEq, Repr

/-- The three fields the code extracts from the external service's parsed
output: `email_data["subject"]`, `email_data["body"]`,
`email_data["call_to_action"]` (src/main.py lines 113-115). -/
structure EmailData where
  subject : String
  body : String
  call_to_action : String
deriving DecidableEq, Repr

/-- Oracle for one external generation call followed by the parse:
`client.generate(...)`, `eval(response.generations[0].text.strip())` and
the three key accesses (src/main.py lines 104-115).  `Except.error e`
stands for any exception raised there, carrying `str(e)`. -/
def Svc : Type := String → Except String EmailData

/-- `str(e)` for a caught `HTTPException` with detail `d`: starlette
renders it as `f"\x7bself.status_code\x7d: \x7bself.detail\x7d"` with
status code 500 throughout this file. -/
def strHTTPExc (d : String) : String := "500: " ++ d

/-- `account.contacts[0]` (src/main.py line 90).  Validation guarantees a
non-empty contact list; the default is only reached outside pydantic's
domain. -/
def firstContact (account : Account) : Contact :=
  account.contacts.headD ⟨"", "", "", "A"⟩

/-- The f-string prompt of `generate_email_content` (src/main.py lines
83-102), including its source-level indentation. -/
def buildPrompt (account : Account) (email_number : Nat) (total_emails : Int)
    (tone : String) : String :=
  "\n        Create a personalized email for the following business account:\n" ++
  "        Company: " ++ account.account_name ++ "\n" ++
  "        Industry: " ++ account.industry ++ "\n" ++
  "        Pain Points: " ++ String.intercalate ", " account.pain_points ++ "\n" ++
  "        Campaign Stage: Email " ++ toString email_number ++ " of " ++
    toString total_emails ++ "\n" ++
  "        Campaign Objective: " ++ account.campaign_objective ++ "\n" ++
  "        Recipient Job Title: " ++ (firstContact account).job_title ++ "\n\n" ++
  "        Interest: " ++ account.interest ++ "\n" ++
  "        Tone: " ++ tone ++ "\n" ++
  "        Language: " ++ account.language ++ "\n\n" ++
  "        Generate a JSON response with:\n" ++
  "        1. An engaging and catchy subject line\n" ++
  "        2. Personalized email body\n" ++
  "        3. Clear call-to-action\n\n" ++
  "        Format the response as valid JSON with keys: \"subject\", \"body\", \"call_to_action\"\n        "

/-- The hardcoded tone list of the A/B loop, `for tone in ["formal", "casual"]`
(src/main.py line 82). -/
def tones : List String := ["formal", "casual"]

/-- The body of `generate_email_content`'s tone loop (src/main.py lines
82-123), recursing over the remaining tones.  On a service/parse failure
the loop raises `HTTPException(500, f"Error generating email variant: ...")`
at once; otherwise the variant is appended and the loop continues.  The
second component is the list of prompts sent, in order. -/
def genVariantsGo (svc : Svc) (account : Account) (email_number : Nat)
    (total_emails : Int) : List String → Except String (List EmailVariant) × List String
  | [] => (Except.ok [], [])
  | tone :: rest =>
    let p := buildPrompt account email_number total_emails tone
    match svc p with
    | Except.error e => (Except.error ("Error generating email variant: " ++ e), [p])
    | Except.ok d =>
      match genVariantsGo svc account email_number total_emails rest with
      | (Except.ok vs, tr) =>
          (Except.ok (⟨d.subject, d.body, d.call_to_action⟩ :: vs), p :: tr)
      | (Except.error e, tr) => (Except.error e, p :: tr)

/-- `generate_email_content` (src/main.py lines 79-123). -/
def generate_email_content (svc : Svc) (account : Account) (email_number : Nat)
    (total_emails : Int) : Except String (List EmailVariant) × List String :=
  genVariantsGo svc account email_number total_emails tones

/-- The group-reassignment loop of `generate_campaign` (src/main.py lines
129-131): every contact's `group` is overwritten with a fresh draw,
modelled by `rndA` applied to the contact's index. -/
def assignGroups (rndA : Nat → String) (cs : List Contact) : List Contact :=
  cs.enum.map fun ic => { ic.2 with group := rndA ic.1 }

/-- The email-step loop of `generate_campaign`, `for i in range(number_of_emails)`
(src/main.py lines 133-135), recursing over the remaining 0-based step
indices and passing `i + 1` as the email number. -/
def genEmailsGo (svc : Svc) (account : Account) (total_emails : Int) :
    List Nat → Except String (List Email) × List String
  | [] => (Except.ok [], [])
  | i :: rest =>
    match generate_email_content svc account (i + 1) total_emails with
    | (Except.error e, tr) => (Except.error e, tr)
    | (Except.ok vs, tr) =>
      match genEmailsGo svc account total_emails rest with
      | (Except.ok es, tr2) => (Except.ok (⟨vs⟩ :: es), tr ++ tr2)
      | (Except.error e, tr2) => (Except.error e, tr ++ tr2)

/-- `generate_campaign` (src/main.py lines 125-142): reassign contact
groups, generate the emails, and wrap any exception `e` as
`HTTPException(500, f"Error generating campaign for ...: str(e)")`. -/
def generate_campaign (svc : Svc) (rndA : Nat → String) (account : Account)
    (number_of_emails : Int) : Except String Campaign × List String :=
  let account' := { account with contacts := assignGroups rndA account.contacts }
  match genEmailsGo svc account' number_of_emails (List.range number_of_emails.toNat) with
  | (Except.ok emails, tr) => (Except.ok ⟨account'.account_name, emails⟩, tr)
  | (Except.error e, tr) =>
    (Except.error ("Error generating campaign for " ++ account'.account_name ++ ": " ++
      strHTTPExc e), tr)

/-- The account loop of `generate_campaigns` (src/main.py lines 156-159),
recursing over the remaining accounts; `k` is the index of the next
account, used only to select its group-assignment draws. -/
def genCampaignsGo (svc : Svc) (rnd : Nat → Nat → String) (number_of_emails : Int)
    (k : Nat) : List Account → Except String (List Campaign) × List String
  | [] => (Except.ok [], [])
  | a :: rest =>
    match generate_campaign svc (rnd k) a number_of_emails with
    | (Except.error e, tr) => (Except.error e, tr)
    | (Except.ok c, tr) =>
      match genCampaignsGo svc rnd number_of_emails (k + 1) rest with
      | (Except.ok cs, tr2) => (Except.ok (c :: cs), tr ++ tr2)
      | (Except.error e, tr2) => (Except.error e, tr ++ tr2)

/-- `generate_campaigns` (src/main.py lines 150-166): run `generate_campaign`
for every account in input order and wrap any exception `e` as
`HTTPException(500, f"Error generating campaigns: str(e)")`. -/
def generate_campaigns (svc : Svc) (rnd : Nat → Nat → String)
    (request : CampaignRequest) : Except String CampaignResponse × List String :=
  match genCampaignsGo svc rnd request.number_of_emails 0 request.accounts with
  | (Except.ok cs, tr) => (Except.ok ⟨cs⟩, tr)
  | (Except.error e, tr) =>
    (Except.error ("Error generating campaigns: " ++ strHTTPExc e), tr)

/-- The fixed CSV header row (src/main.py line 187). -/
def csvHeader : List String :=
  ["Account Name", "Email Number", "Variant", "Subject", "Body", "Call to Action"]

/-- The CSV rows written by `export_campaigns_csv` (src/main.py lines
187-200): the header, then for each campaign, for each email (1-based via
`enumerate(campaign.emails, 1)`), for each variant (1-based), one row. -/
def csvRows (resp : CampaignResponse) : List (List String) :=
  csvHeader :: resp.campaigns.flatMap fun c =>
    c.emails.enum.flatMap fun ie =>
      ie.2.variants.enum.map fun jv =>
        [c.account_name, "Email " ++ toString (ie.1 + 1),
         "Variant " ++ toString (jv.1 + 1),
         jv.2.subject, jv.2.body, jv.2.call_to_action]

/-- `export_campaigns_csv` (src/main.py lines 173-217): regenerate the
campaigns, flatten them to CSV rows, and wrap any exception `e` as
`HTTPException(500, f"Error exporting campaigns to CSV: str(e)")`. -/
def export_campaigns_csv (svc : Svc) (rnd : Nat → Nat → String)
    (request : CampaignRequest) : Except String (List (List String)) × List String :=
  match generate_campaigns svc rnd request with
  | (Except.ok resp, tr) => (Except.ok (csvRows resp), tr)
  | (Except.error e, tr) =>
    (Except.error ("Error exporting campaigns to CSV: " ++ strHTTPExc e), tr)

/-- pydantic string-length bounds `min_length=lo, max_length=hi`. -/
def strLenOK (lo hi : Nat) (s : String) : Bool :=
  decide (lo ≤ s.length) && decide (s.length ≤ hi)

/-- pydantic validation of `Contact` (src/main.py lines 20-24).  `emailOk`
abstracts pydantic's `EmailStr` validator, which lives outside this
repository. -/
def Contact.validB (emailOk : String → Bool) (c : Contact) : Bool :=
  strLenOK 1 100 c.name && emailOk c.email && strLenOK 1 100 c.job_title &&
  (c.group == "A" || c.group == "B")

/-- pydantic validation of `Account` (src/main.py lines 26-36). -/
def Account.validB (emailOk : String → Bool) (a : Account) : Bool :=
  strLenOK 1 200 a.account_name && strLenOK 1 100 a.industry &&
  (decide (1 ≤ a.pain_points.length) && decide (a.pain_points.length ≤ 5)) &&
  decide (1 ≤ a.contacts.length) && a.contacts.all (Contact.validB emailOk) &&
  (a.campaign_objective == "awareness" || a.campaign_objective == "nurturing" ||
    a.campaign_objective == "upselling") &&
  (a.interest == "high" || a.interest == "medium" || a.interest == "low") &&
  (a.tone == "formal" || a.tone == "casual" || a.tone == "enthusiastic" ||
    a.tone == "neutral") &&
  strLenOK 1 200 a.language

/-- pydantic validation of `CampaignRequest` (src/main.py lines 50-52):
`accounts` has 1-10 items, each valid, and `number_of_emails` satisfies
`gt=0, le=10`. -/
def CampaignRequest.validB (emailOk : String → Bool) (r : CampaignRequest) : Bool :=
  (decide (1 ≤ r.accounts.length) && decide (r.accounts.length ≤ 10)) &&
  r.accounts.all (Account.validB emailOk) &&
  (decide (0 < r.number_of_emails) && decide (r.number_of_emails ≤ 10))

/-- The error body FastAPI/pydantic produce when request validation fails
(HTTP 422); the handler body never runs in that case. -/
def validationError : String := "422: request validation failed"

/-- The `POST /generate-campaigns/` endpoint (src/main.py lines 144-166):
pydantic validates the request body against the declared constraints
before the handler runs; on failure the request is rejected with no
external call made. -/
def postGenerateCampaigns (emailOk : String → Bool) (svc : Svc)
    (rnd : Nat → Nat → String) (request : CampaignRequest) :
    Except String CampaignResponse × List String :=
  if CampaignRequest.validB emailOk request then generate_campaigns svc rnd request
  else (Except.error validationError, [])

/-- The `POST /export-campaigns-csv/` endpoint (src/main.py lines 168-217)
behind the same pydantic validation gate. -/
def postExportCampaignsCsv (emailOk : String → Bool) (svc : Svc)
    (rnd : Nat → Nat → String) (request : CampaignRequest) :
    Except String (List (List String)) × List String :=
  if CampaignRequest.validB emailOk request then export_campaigns_csv svc rnd request
  else (Except.error validationError, [])

/-- The payload returned by `health_check` (src/main.py lines 226-231). -/
structure HealthPayload where
  status : String
  timestamp : String
  version : String
  cohere_api_configured : Bool
deriving DecidableEq, Repr

/-- `health_check` (src/main.py lines 224-231): returns HTTP 200 with a
literal payload.  `env` models the process environment
(`os.getenv`-style lookup) and `now` the `datetime.now().isoformat()`
string; the function body reads neither the environment nor the API key. -/
def health_check (env : String → Option String) (now : String) :
    Nat × HealthPayload :=
  (200, ⟨"healthy", now, "1.0.0", true⟩)

/-- Whether the external-service API key is configured in the environment
(`os.getenv("COHERE_API_KEY")`, src/main.py line 61/74). -/
def cohereKeyConfigured (env : String → Option String) : Bool :=
  (env "COHERE_API_KEY").isSome

/-! ## Derived descriptions of a fully successful run

`mkVariant`, `specCampaign`, `specResponse` and the prompt enumerations
below describe, in closed form, what the generation code produces when
every external call succeeds; the lemmas that follow prove the embedded
code equal to them. -/

/-- The `EmailVariant` built from the oracle's parsed answer to prompt `p`
(src/main.py lines 111-117), when the oracle answers `d p`. -/
def mkVariant (d : String → EmailData) (p : String) : EmailVariant :=
  ⟨(d p).subject, (d p).body, (d p).call_to_action⟩

/-- All prompts one account generates: step order `1..n`, and for each
step the tones in loop order (formal, then casual). -/
def accountPrompts (a : Account) (n : Int) : List String :=
  (List.range n.toNat).flatMap fun i => tones.map (buildPrompt a (i + 1) n)

/-- All prompts of one request: account order, then step order, then tone
order. -/
def canonicalPrompts (r : CampaignRequest) : List String :=
  r.accounts.flatMap fun a => accountPrompts a r.number_of_emails

/-- The campaign produced for account `a` when every call succeeds with
oracle answer function `d`. -/
def specCampaign (d : String → EmailData) (a : Account) (n : Int) : Campaign :=
  ⟨a.account_name,
   (List.range n.toNat).map fun i =>
     ⟨tones.map fun t => mkVariant d (buildPrompt a (i + 1) n t)⟩⟩

/-- The response produced for request `r` when every call succeeds. -/
def specResponse (d : String → EmailData) (r : CampaignRequest) : CampaignResponse :=
  ⟨r.accounts.map fun a => specCampaign d a r.number_of_emails⟩

lemma firstContact_assignGroups (rndA : Nat → String) (a : Account) :
    (firstContact { a with contacts := assignGroups rndA a.contacts }).job_title =
      (firstContact a).job_title := by
  cases h : a.contacts with
  | nil => simp [firstContact, assignGroups, h]
  | cons c cs => simp [firstContact, assignGroups, h, List.enum, List.enumFrom]

lemma buildPrompt_assignGroups (rndA : Nat → String) (a : Account) (i : Nat)
    (n : Int) (t : String) :
    buildPrompt { a with contacts := assignGroups rndA a.contacts } i n t =
      buildPrompt a i n t := by
  simp [buildPrompt, firstContact_assignGroups]

lemma buildPrompt_assignGroups_fun (rndA : Nat → String) (a : Account) (i : Nat)
    (n : Int) :
    buildPrompt { a with contacts := assignGroups rndA a.contacts } i n =
      buildPrompt a i n :=
  funext (buildPrompt_assignGroups rndA a i n)

lemma genVariantsGo_ok (svc : Svc) (d : String → EmailData)
    (hd : ∀ p, svc p = Except.ok (d p)) (a : Account) (en : Nat) (te : Int) :
    ∀ ts : List String, genVariantsGo svc a en te ts =
      (Except.ok (ts.map fun t => mkVariant d (buildPrompt a en te t)),
       ts.map (buildPrompt a en te)) := by
  intro ts
  induction ts with
  | nil => rfl
  | cons t rest ih => simp [genVariantsGo, hd, ih, mkVariant]

lemma generate_email_content_ok (svc : Svc) (d : String → EmailData)
    (hd : ∀ p, svc p = Except.ok (d p)) (a : Account) (en : Nat) (te : Int) :
    generate_email_content svc a en te =
      (Except.ok (tones.map fun t => mkVariant d (buildPrompt a en te t)),
       tones.map (buildPrompt a en te)) :=
  genVariantsGo_ok svc d hd a en te tones

lemma genEmailsGo_ok (svc : Svc) (d : String → EmailData)
    (hd : ∀ p, svc p = Except.ok (d p)) (a : Account) (te : Int) :
    ∀ is : List Nat, genEmailsGo svc a te is =
      (Except.ok (is.map fun i =>
         ⟨tones.map fun t => mkVariant d (buildPrompt a (i + 1) te t)⟩),
       is.flatMap fun i => tones.map (buildPrompt a (i + 1) te)) := by
  intro is
  induction is with
  | nil => rfl
  | cons i rest ih => simp [genEmailsGo, generate_email_content_ok svc d hd, ih]

lemma generate_campaign_ok (svc : Svc) (d : String → EmailData)
    (hd : ∀ p, svc p = Except.ok (d p)) (rndA : Nat → String) (a : Account)
    (n : Int) :
    generate_campaign svc rndA a n =
      (Except.ok (specCampaign d a n), accountPrompts a n) := by
  simp [generate_campaign, genEmailsGo_ok svc d hd, specCampaign, accountPrompts,
    buildPrompt_assignGroups, buildPrompt_assignGroups_fun]

lemma genCampaignsGo_ok (svc : Svc) (d : String → EmailData)
    (hd : ∀ p, svc p = Except.ok (d p)) (rnd : Nat → Nat → String) (n : Int) :
    ∀ (accs : List Account) (k : Nat), genCampaignsGo svc rnd n k accs =
      (Except.ok (accs.map fun a => specCampaign d a n),
       accs.flatMap fun a => accountPrompts a n) := by
  intro accs
  induction accs with
  | nil => intro k; rfl
  | cons a rest ih =>
    intro k
    simp [genCampaignsGo, generate_campaign_ok svc d hd, ih]

lemma generate_campaigns_ok (svc : Svc) (d : String → EmailData)
    (hd : ∀ p, svc p = Except.ok (d p)) (rnd : Nat → Nat → String)
    (r : CampaignRequest) :
    generate_campaigns svc rnd r =
      (Except.ok (specResponse d r), canonicalPrompts r) := by
  unfold generate_campaigns
  rw [genCampaignsGo_ok svc d hd]
  simp [specResponse, canonicalPrompts]

/-! ## A successful result certifies every issued call

If a generation function returned `Except.ok`, every external call it was
responsible for must have succeeded: the loops abort on the first
failure (src/main.py lines 118-122, 138-142, 162-166). -/

lemma genVariantsGo_ok_svc (svc : Svc) (a : Account) (en : Nat) (te : Int) :
    ∀ (ts : List String) (vs : List EmailVariant) (tr : List String),
      genVariantsGo svc a en te ts = (Except.ok vs, tr) →
      ∀ t ∈ ts, ∃ dd, svc (buildPrompt a en te t) = Except.ok dd := by
  intro ts
  induction ts with
  | nil =>
    intro vs tr _ t ht
    simp at ht
  | cons t rest ih =>
    intro vs tr h t' ht'
    rw [List.mem_cons] at ht'
    rcases hs : svc (buildPrompt a en te t) with e | dd
    · simp [genVariantsGo, hs] at h
    · rcases ht' with rfl | hmem
      · exact ⟨dd, hs⟩
      · rcases hrec : genVariantsGo svc a en te rest with ⟨res, tr0⟩
        cases res with
        | error e => simp [genVariantsGo, hs, hrec] at h
        | ok vs0 => exact ih vs0 tr0 hrec t' hmem

lemma genEmailsGo_ok_svc (svc : Svc) (a : Account) (te : Int) :
    ∀ (is : List Nat) (es : List Email) (tr : List String),
      genEmailsGo svc a te is = (Except.ok es, tr) →
      ∀ i ∈ is, ∀ t ∈ tones, ∃ dd, svc (buildPrompt a (i + 1) te t) = Except.ok dd := by
  intro is
  induction is with
  | nil =>
    intro es tr _ i hi
    simp at hi
  | cons i rest ih =>
    intro es tr h i' hi' t ht
    rw [List.mem_cons] at hi'
    rcases hv : generate_email_content svc a (i + 1) te with ⟨res1, tr1⟩
    cases res1 with
    | error e => simp [genEmailsGo, hv] at h
    | ok vs =>
      rcases hrec : genEmailsGo svc a te rest with ⟨res2, tr2⟩
      cases res2 with
      | error e => simp [genEmailsGo, hv, hrec] at h
      | ok es2 =>
        rcases hi' with rfl | hmem
        · unfold generate_email_content at hv
          exact genVariantsGo_ok_svc svc a (i' + 1) te tones vs tr1 hv t ht
        · exact ih es2 tr2 hrec i' hmem t ht

lemma generate_campaign_ok_svc (svc : Svc) (rndA : Nat → String) (a : Account)
    (n : Int) (c : Campaign) (tr : List String)
    (h : generate_campaign svc rndA a n = (Except.ok c, tr)) :
    ∀ i ∈ List.range n.toNat, ∀ t ∈ tones,
      ∃ dd, svc (buildPrompt a (i + 1) n t) = Except.ok dd := by
  intro i hi t ht
  unfold generate_campaign at h
  rcases hg : genEmailsGo svc { a with contacts := assignGroups rndA a.contacts } n
      (List.range n.toNat) with ⟨res, tr0⟩
  cases res with
  | error e => simp [hg] at h
  | ok es =>
    have hmem := genEmailsGo_ok_svc svc _ n (List.range n.toNat) es tr0 hg i hi t ht
    rwa [buildPrompt_assignGroups] at hmem

lemma genCampaignsGo_ok_svc (svc : Svc) (rnd : Nat → Nat → String) (n : Int) :
    ∀ (accs : List Account) (k : Nat) (cs : List Campaign) (tr : List String),
      genCampaignsGo svc rnd n k accs = (Except.ok cs, tr) →
      ∀ a ∈ accs, ∀ i ∈ List.range n.toNat, ∀ t ∈ tones,
        ∃ dd, svc (buildPrompt a (i + 1) n t) = Except.ok dd := by
  intro accs
  induction accs with
  | nil =>
    intro k cs tr _ a ha
    simp at ha
  | cons a rest ih =>
    intro k cs tr h a' ha' i hi t ht
    rw [List.mem_cons] at ha'
    rcases hc : generate_campaign svc (rnd k) a n with ⟨res1, tr1⟩
    cases res1 with
    | error e => simp [genCampaignsGo, hc] at h
    | ok c =>
      rcases hrec : genCampaignsGo svc rnd n (k + 1) rest with ⟨res2, tr2⟩
      cases res2 with
      | error e => simp [genCampaignsGo, hc, hrec] at h
      | ok cs2 =>
        rcases ha' with rfl | hmem
        · exact generate_campaign_ok_svc svc (rnd k) a' n c tr1 hc i hi t ht
        · exact ih (k + 1) cs2 tr2 hrec a' hmem i hi t ht

lemma generate_campaigns_ok_svc (svc : Svc) (rnd : Nat → Nat → String)
    (r : CampaignRequest) (resp : CampaignResponse)
    (h : (generate_campaigns svc rnd r).1 = Except.ok resp) :
    ∀ p ∈ canonicalPrompts r, ∃ dd, svc p = Except.ok dd := by
  intro p hp
  rw [canonicalPrompts, List.mem_flatMap] at hp
  obtain ⟨a, ha, hpa⟩ := hp
  rw [accountPrompts, List.mem_flatMap] at hpa
  obtain ⟨i, hi, hpt⟩ := hpa
  rw [List.mem_map] at hpt
  obtain ⟨t, ht, rfl⟩ := hpt
  rcases hg : genCampaignsGo svc rnd r.number_of_emails 0 r.accounts with ⟨res, tr⟩
  cases res with
  | error e => simp [generate_campaigns, hg] at h
  | ok cs =>
    exact genCampaignsGo_ok_svc svc rnd r.number_of_emails r.accounts 0 cs tr hg
      a ha i hi t ht

/-! ## Shape of generation error messages

Every error escaping `generate_campaign` carries the account-level wrap
of src/main.py line 141, and `generate_campaigns` adds one more wrap
(line 165); neither mentions the email step. -/

lemma generate_campaign_error_shape (svc : Svc) (rndA : Nat → String)
    (a : Account) (n : Int) (m : String) (tr : List String)
    (h : generate_campaign svc rndA a n = (Except.error m, tr)) :
    ∃ e, m = "Error generating campaign for " ++ a.account_name ++ ": " ++
      strHTTPExc e := by
  unfold generate_campaign at h
  rcases hg : genEmailsGo svc { a with contacts := assignGroups rndA a.contacts } n
      (List.range n.toNat) with ⟨res, tr0⟩
  cases res with
  | ok es => simp [hg] at h
  | error e =>
    simp [hg] at h
    exact ⟨e, h.1.symm⟩

lemma genCampaignsGo_error_shape (svc : Svc) (rnd : Nat → Nat → String) (n : Int) :
    ∀ (accs : List Account) (k : Nat) (m : String) (tr : List String),
      genCampaignsGo svc rnd n k accs = (Except.error m, tr) →
      ∃ a ∈ accs, ∃ e, m = "Error generating campaign for " ++ a.account_name ++
        ": " ++ strHTTPExc e := by
  intro accs
  induction accs with
  | nil =>
    intro k m tr h
    simp [genCampaignsGo] at h
  | cons a rest ih =>
    intro k m tr h
    rcases hc : generate_campaign svc (rnd k) a n with ⟨res1, tr1⟩
    cases res1 with
    | error e1 =>
      simp [genCampaignsGo, hc] at h
      obtain ⟨e0, he⟩ := generate_campaign_error_shape svc (rnd k) a n e1 tr1 hc
      exact ⟨a, List.mem_cons_self a rest, e0, by rw [← h.1, he]⟩
    | ok c =>
      rcases hrec : genCampaignsGo svc rnd n (k + 1) rest with ⟨res2, tr2⟩
      cases res2 with
      | error e2 =>
        simp [genCampaignsGo, hc, hrec] at h
        obtain ⟨a', ha', e0, he⟩ := ih (k + 1) e2 tr2 hrec
        exact ⟨a', List.mem_cons_of_mem a ha', e0, by rw [← h.1, he]⟩
      | ok cs2 => simp [genCampaignsGo, hc, hrec] at h

lemma generate_campaigns_error_shape (svc : Svc) (rnd : Nat → Nat → String)
    (r : CampaignRequest) (m : String)
    (h : (generate_campaigns svc rnd r).1 = Except.error m) :
    ∃ a ∈ r.accounts, ∃ e, m = "Error generating campaigns: " ++
      strHTTPExc ("Error generating campaign for " ++ a.account_name ++ ": " ++
        strHTTPExc e) := by
  rcases hg : genCampaignsGo svc rnd r.number_of_emails 0 r.accounts with ⟨res, tr⟩
  cases res with
  | ok cs => simp [generate_campaigns, hg] at h
  | error e =>
    simp [generate_campaigns, hg] at h
    obtain ⟨a, ha, e0, he⟩ := genCampaignsGo_error_shape svc rnd r.number_of_emails
      r.accounts 0 e tr hg
    exact ⟨a, ha, e0, by rw [← h, he]⟩

/-! ## Noninterference: the fields the generation logic reads

The prompt (src/main.py lines 83-102) embeds the account name, industry,
pain points, campaign objective, interest, language and the first
contact's job title; the only other account data the generation and
export code reads is the account name (campaign construction and error
messages).  `AccountView` collects exactly these. -/

/-- Projection of an `Account` to the data consumed by generation and
export: contact `group` values, contact names and emails, contacts after
the first, and the account's own `tone` are all outside it. -/
structure AccountView where
  account_name : String
  industry : String
  pain_points : List String
  campaign_objective : String
  interest : String
  language : String
  first_job_title : String
deriving DecidableEq, Repr

/-- The view of an account. -/
def Account.view (a : Account) : AccountView :=
  ⟨a.account_name, a.industry, a.pain_points, a.campaign_objective, a.interest,
   a.language, (firstContact a).job_title⟩

lemma view_assignGroups (rndA : Nat → String) (a : Account) :
    ({ a with contacts := assignGroups rndA a.contacts } : Account).view = a.view := by
  simp [Account.view, firstContact_assignGroups]

lemma buildPrompt_view (a1 a2 : Account) (h : a1.view = a2.view) (i : Nat)
    (n : Int) : buildPrompt a1 i n = buildPrompt a2 i n := by
  funext t
  simp only [Account.view, AccountView.mk.injEq] at h
  obtain ⟨h1, h2, h3, h4, h5, h6, h7⟩ := h
  simp [buildPrompt, h1, h2, h3, h4, h5, h6, h7]

lemma genVariantsGo_view (svc : Svc) (a1 a2 : Account) (h : a1.view = a2.view)
    (en : Nat) (te : Int) :
    ∀ ts, genVariantsGo svc a1 en te ts = genVariantsGo svc a2 en te ts := by
  intro ts
  induction ts with
  | nil => rfl
  | cons t rest ih =>
    simp only [genVariantsGo, ih, buildPrompt_view a1 a2 h en te]

lemma genEmailsGo_view (svc : Svc) (a1 a2 : Account) (h : a1.view = a2.view)
    (te : Int) : ∀ is, genEmailsGo svc a1 te is = genEmailsGo svc a2 te is := by
  intro is
  induction is with
  | nil => rfl
  | cons i rest ih =>
    simp only [genEmailsGo, generate_email_content,
      genVariantsGo_view svc a1 a2 h (i + 1) te, ih]

lemma generate_campaign_view (svc : Svc) (rndA1 rndA2 : Nat → String)
    (a1 a2 : Account) (h : a1.view = a2.view) (n : Int) :
    generate_campaign svc rndA1 a1 n = generate_campaign svc rndA2 a2 n := by
  have hname : a1.account_name = a2.account_name :=
    congrArg AccountView.account_name h
  have hv : ({ a1 with contacts := assignGroups rndA1 a1.contacts } : Account).view =
      ({ a2 with contacts := assignGroups rndA2 a2.contacts } : Account).view := by
    rw [view_assignGroups, view_assignGroups, h]
  have hge := genEmailsGo_view svc _ _ hv n (List.range n.toNat)
  simp only [generate_campaign]
  rw [hge, hname]

lemma genCampaignsGo_view (svc : Svc) (rnd1 rnd2 : Nat → Nat → String) (n : Int) :
    ∀ (accs1 accs2 : List Account),
      accs1.map Account.view = accs2.map Account.view →
      ∀ k1 k2, genCampaignsGo svc rnd1 n k1 accs1 = genCampaignsGo svc rnd2 n k2 accs2 := by
  intro accs1
  induction accs1 with
  | nil =>
    intro accs2 h k1 k2
    cases accs2 with
    | nil => rfl
    | cons a2 rest2 => simp at h
  | cons a1 rest1 ih =>
    intro accs2 h k1 k2
    cases accs2 with
    | nil => simp at h
    | cons a2 rest2 =>
      simp only [List.map_cons, List.cons.injEq] at h
      obtain ⟨h1, h2⟩ := h
      simp only [genCampaignsGo,
        generate_campaign_view svc (rnd1 k1) (rnd2 k2) a1 a2 h1 n,
        ih rest2 h2 (k1 + 1) (k2 + 1)]

lemma generate_campaigns_view (svc : Svc) (rnd1 rnd2 : Nat → Nat → String)
    (r1 r2 : CampaignRequest)
    (hacc : r1.accounts.map Account.view = r2.accounts.map Account.view)
    (hn : r1.number_of_emails = r2.number_of_emails) :
    generate_campaigns svc rnd1 r1 = generate_campaigns svc rnd2 r2 := by
  unfold generate_campaigns
  rw [hn, genCampaignsGo_view svc rnd1 rnd2 r2.number_of_emails r1.accounts
    r2.accounts hacc 0 0]

/-! ## CSV flattening of a successful response -/

lemma enumFrom_map_range' {α : Type} (f : Nat → α) :
    ∀ (m s : Nat), List.enumFrom s ((List.range' s m).map f) =
      (List.range' s m).map fun i => (i, f i) := by
  intro m
  induction m with
  | zero => intro s; rfl
  | succ m ih =>
    intro s
    rw [List.range'_succ]
    simp only [List.map_cons, List.enumFrom]
    rw [ih (s + 1)]

lemma enum_map_range {α : Type} (f : Nat → α) (m : Nat) :
    ((List.range m).map f).enum = (List.range m).map fun i => (i, f i) := by
  rw [List.range_eq_range']
  exact enumFrom_map_range' f m 0

lemma length_flatMap_const {α β : Type} (l : List α) (f : α → List β) (c : Nat)
    (h : ∀ a ∈ l, (f a).length = c) : (l.flatMap f).length = l.length * c := by
  induction l with
  | nil => simp
  | cons a rest ih =>
    simp only [List.flatMap_cons, List.length_append, List.length_cons,
      h a (List.mem_cons_self a rest)]
    rw [ih fun x hx => h x (List.mem_cons_of_mem a hx)]
    ring

/-- The data rows (header excluded) the CSV export emits for a fully
successful run with oracle answers `d`: account order, step order with
1-based "Email i" labels, variant order "Variant 1" (formal) then
"Variant 2" (casual). -/
def specCsvTail (d : String → EmailData) (r : CampaignRequest) : List (List String) :=
  r.accounts.flatMap fun a =>
    (List.range r.number_of_emails.toNat).flatMap fun i =>
      [[a.account_name, "Email " ++ toString (i + 1), "Variant 1",
        (d (buildPrompt a (i + 1) r.number_of_emails "formal")).subject,
        (d (buildPrompt a (i + 1) r.number_of_emails "formal")).body,
        (d (buildPrompt a (i + 1) r.number_of_emails "formal")).call_to_action],
       [a.account_name, "Email " ++ toString (i + 1), "Variant 2",
        (d (buildPrompt a (i + 1) r.number_of_emails "casual")).subject,
        (d (buildPrompt a (i + 1) r.number_of_emails "casual")).body,
        (d (buildPrompt a (i + 1) r.number_of_emails "casual")).call_to_action]]

lemma csvRows_specResponse (d : String → EmailData) (r : CampaignRequest) :
    csvRows (specResponse d r) = csvHeader :: specCsvTail d r := by
  have h1 : ("Variant " ++ toString (1 : Nat)) = "Variant 1" := by decide
  have h2 : ("Variant " ++ toString (2 : Nat)) = "Variant 2" := by decide
  unfold csvRows specResponse specCampaign specCsvTail
  simp only [List.cons.injEq, true_and]
  rw [List.flatMap_map]
  congr 1
  funext a
  simp only [Function.comp]
  rw [enum_map_range, List.flatMap_map]
  congr 1
  funext i
  simp [tones, List.enum, List.enumFrom, mkVariant, h1, h2]

lemma specCsvTail_length (d : String → EmailData) (r : CampaignRequest) :
    (specCsvTail d r).length =
      r.accounts.length * (r.number_of_emails.toNat * 2) := by
  unfold specCsvTail
  rw [length_flatMap_const _ _ (r.number_of_emails.toNat * 2)]
  intro a _
  rw [length_flatMap_const _ _ 2]
  · simp
  · intro i _
    rfl

/-! ## Facts extracted from a passing validation -/

lemma account_validB_bounds (emailOk : String → Bool) (a : Account)
    (hva : Account.validB emailOk a = true) :
    1 ≤ a.pain_points.length ∧ a.pain_points.length ≤ 5 ∧
      1 ≤ a.contacts.length := by
  unfold Account.validB at hva
  simp only [Bool.and_eq_true, decide_eq_true_eq] at hva
  tauto

lemma validB_bounds (emailOk : String → Bool) (r : CampaignRequest)
    (hV : CampaignRequest.validB emailOk r = true) :
    1 ≤ r.accounts.length ∧ r.accounts.length ≤ 10 ∧
      (∀ a ∈ r.accounts, Account.validB emailOk a = true) ∧
      0 < r.number_of_emails ∧ r.number_of_emails ≤ 10 := by
  unfold CampaignRequest.validB at hV
  simp only [Bool.and_eq_true, decide_eq_true_eq, List.all_eq_true] at hV
  tauto

lemma validB_false_of_boundary (emailOk : String → Bool) (r : CampaignRequest)
    (h : r.accounts.length = 0 ∨ r.accounts.length = 11 ∨
      (∃ a ∈ r.accounts, a.pain_points.length = 0 ∨ a.pain_points.length = 6 ∨
        a.contacts.length = 0) ∨
      r.number_of_emails < 1 ∨ 10 < r.number_of_emails) :
    CampaignRequest.validB emailOk r = false := by
  cases hV : CampaignRequest.validB emailOk r with
  | false => rfl
  | true =>
    exfalso
    obtain ⟨h1, h10, hall, hn1, hn10⟩ := validB_bounds emailOk r hV
    rcases h with h | h | ⟨a, ha, hbad⟩ | h | h
    · omega
    · omega
    · obtain ⟨hp1, hp5, hc1⟩ := account_validB_bounds emailOk a (hall a ha)
      rcases hbad with hb | hb | hb <;> omega
    · omega
    · omega

/-! ## Concrete inputs used by the witnesses and counterexamples -/

/-- A concrete valid contact. -/
def wContact : Contact := ⟨"Jo", "jo@example.com", "CTO", "A"⟩

/-- A concrete valid account. -/
def wAccount : Account :=
  ⟨"Acme", "Tech", ["slow sales"], [wContact], "awareness", "medium", "neutral",
   "English"⟩

/-- A concrete valid request: one account, two email steps. -/
def wRequest : CampaignRequest := ⟨[wAccount], 2⟩

/-- A fixed parsed answer. -/
def wData : EmailData := ⟨"s", "b", "c"⟩

/-- An oracle that always succeeds. -/
def svcOkAll : Svc := fun _ => Except.ok wData

/-- The answer function of `svcOkAll`. -/
def dAll : String → EmailData := fun _ => wData

/-- A fixed A/B draw. -/
def rnd0 : Nat → Nat → String := fun _ _ => "A"

/-- An email validator that accepts everything. -/
def emailOkAll : String → Bool := fun _ => true

/-! ## The claims -/

/-- C1: for every valid CampaignRequest with accounts `a` and
`number_of_emails = n`, if every external generation call succeeds and
parses (oracle `svc` answers `d`), the CampaignResponse returned by
`generate_campaigns` contains exactly `len a` campaigns, each campaign
exactly `n` emails, and each email exactly 2 variants. -/
theorem spec_claim_C1 (emailOk : String → Bool) (svc : Svc)
    (d : String → EmailData) (rnd : Nat → Nat → String) (r : CampaignRequest)
    (hv : CampaignRequest.validB emailOk r = true)
    (hd : ∀ p, svc p = Except.ok (d p)) :
    ∃ resp, (generate_campaigns svc rnd r).1 = Except.ok resp ∧
      resp.campaigns.length = r.accounts.length ∧
      ∀ c ∈ resp.campaigns, (c.emails.length : Int) = r.number_of_emails ∧
        ∀ em ∈ c.emails, em.variants.length = 2 := by
  obtain ⟨-, -, -, hn0, -⟩ := validB_bounds emailOk r hv
  refine ⟨specResponse d r, by rw [generate_campaigns_ok svc d hd], ?_, ?_⟩
  · simp [specResponse]
  · intro c hc
    simp only [specResponse, List.mem_map] at hc
    obtain ⟨a, ha, rfl⟩ := hc
    constructor
    · simp only [specCampaign, List.length_map, List.length_range]
      omega
    · intro em hem
      simp only [specCampaign, List.mem_map] at hem
      obtain ⟨i, hi, rfl⟩ := hem
      simp [tones]

/-- Witness for C1 at a concrete request and an always-succeeding oracle. -/
theorem spec_claim_C1_witness :
    CampaignRequest.validB emailOkAll wRequest = true ∧
    (∀ p, svcOkAll p = Except.ok (dAll p)) ∧
    (∃ resp, (generate_campaigns svcOkAll rnd0 wRequest).1 = Except.ok resp ∧
      resp.campaigns.length = wRequest.accounts.length ∧
      ∀ c ∈ resp.campaigns, (c.emails.length : Int) = wRequest.number_of_emails ∧
        ∀ em ∈ c.emails, em.variants.length = 2) :=
  ⟨by decide, fun _ => rfl,
   spec_claim_C1 emailOkAll svcOkAll dAll rnd0 wRequest (by decide) (fun _ => rfl)⟩

/-- C2: on every valid CampaignRequest whose generation succeeds, the
campaigns come in the same order as the input accounts, in one-to-one
positional correspondence, and the campaign at each position carries the
account_name of the account at that position. -/
theorem spec_claim_C2 (emailOk : String → Bool) (svc : Svc)
    (d : String → EmailData) (rnd : Nat → Nat → String) (r : CampaignRequest)
    (hv : CampaignRequest.validB emailOk r = true)
    (hd : ∀ p, svc p = Except.ok (d p)) :
    ∃ resp, (generate_campaigns svc rnd r).1 = Except.ok resp ∧
      resp.campaigns.length = r.accounts.length ∧
      ∀ k (hk : k < r.accounts.length),
        ∃ c, resp.campaigns.get? k = some c ∧
          c.account_name = (r.accounts.get ⟨k, hk⟩).account_name := by
  refine ⟨specResponse d r, by rw [generate_campaigns_ok svc d hd], ?_, ?_⟩
  · simp [specResponse]
  · intro k hk
    refine ⟨specCampaign d (r.accounts.get ⟨k, hk⟩) r.number_of_emails, ?_, rfl⟩
    simp only [specResponse, List.get?_map]
    rw [List.get?_eq_get hk]
    rfl

/-- Witness for C2 at a concrete request and an always-succeeding oracle. -/
theorem spec_claim_C2_witness :
    CampaignRequest.validB emailOkAll wRequest = true ∧
    (∀ p, svcOkAll p = Except.ok (dAll p)) ∧
    (∃ resp, (generate_campaigns svcOkAll rnd0 wRequest).1 = Except.ok resp ∧
      resp.campaigns.length = wRequest.accounts.length ∧
      ∀ k (hk : k < wRequest.accounts.length),
        ∃ c, resp.campaigns.get? k = some c ∧
          c.account_name = (wRequest.accounts.get ⟨k, hk⟩).account_name) :=
  ⟨by decide, fun _ => rfl,
   spec_claim_C2 emailOkAll svcOkAll dAll rnd0 wRequest (by decide) (fun _ => rfl)⟩

/-- C3: on every valid CampaignRequest whose generation succeeds, the CSV
produced by `export_campaigns_csv` is the fixed header row followed by
exactly `len accounts * (n * 2)` data rows, one per (campaign, email
step, variant) triple in response nesting order, steps labeled
"Email i" for i = 1..n and variants labeled "Variant 1", "Variant 2"
(see `specCsvTail`). -/
theorem spec_claim_C3 (emailOk : String → Bool) (svc : Svc)
    (d : String → EmailData) (rnd : Nat → Nat → String) (r : CampaignRequest)
    (hv : CampaignRequest.validB emailOk r = true)
    (hd : ∀ p, svc p = Except.ok (d p)) :
    ∃ rows, (export_campaigns_csv svc rnd r).1 = Except.ok rows ∧
      rows = csvHeader :: specCsvTail d r ∧
      rows.length = 1 + r.accounts.length * (r.number_of_emails.toNat * 2) := by
  refine ⟨csvHeader :: specCsvTail d r, ?_, rfl, ?_⟩
  · unfold export_campaigns_csv
    rw [generate_campaigns_ok svc d hd]
    simp [csvRows_specResponse]
  · simp only [List.length_cons, specCsvTail_length]
    omega

/-- Witness for C3 at a concrete request and an always-succeeding oracle. -/
theorem spec_claim_C3_witness :
    CampaignRequest.validB emailOkAll wRequest = true ∧
    (∀ p, svcOkAll p = Except.ok (dAll p)) ∧
    (∃ rows, (export_campaigns_csv svcOkAll rnd0 wRequest).1 = Except.ok rows ∧
      rows = csvHeader :: specCsvTail dAll wRequest ∧
      rows.length = 1 + wRequest.accounts.length *
        (wRequest.number_of_emails.toNat * 2)) :=
  ⟨by decide, fun _ => rfl,
   spec_claim_C3 emailOkAll svcOkAll dAll rnd0 wRequest (by decide) (fun _ => rfl)⟩

/-- C4: on every valid CampaignRequest whose calls all succeed, one run of
`generate_campaigns` issues exactly `len accounts * (n * 2)` external
calls, sequentially in the order given by `canonicalPrompts`: account
order, then step order 1..n, then tone order (formal before casual), one
call per (account, step, tone) triple. -/
theorem spec_claim_C4 (emailOk : String → Bool) (svc : Svc)
    (d : String → EmailData) (rnd : Nat → Nat → String) (r : CampaignRequest)
    (hv : CampaignRequest.validB emailOk r = true)
    (hd : ∀ p, svc p = Except.ok (d p)) :
    (generate_campaigns svc rnd r).2 = canonicalPrompts r ∧
    (generate_campaigns svc rnd r).2.length =
      r.accounts.length * (r.number_of_emails.toNat * 2) := by
  have h := generate_campaigns_ok svc d hd rnd r
  refine ⟨by rw [h], ?_⟩
  rw [h]
  show (canonicalPrompts r).length = _
  unfold canonicalPrompts accountPrompts
  rw [length_flatMap_const _ _ (r.number_of_emails.toNat * 2)]
  intro a _
  rw [length_flatMap_const _ _ 2]
  · simp
  · intro i _
    simp [tones]

/-- Witness for C4 at a concrete request and an always-succeeding oracle. -/
theorem spec_claim_C4_witness :
    CampaignRequest.validB emailOkAll wRequest = true ∧
    (∀ p, svcOkAll p = Except.ok (dAll p)) ∧
    ((generate_campaigns svcOkAll rnd0 wRequest).2 = canonicalPrompts wRequest ∧
     (generate_campaigns svcOkAll rnd0 wRequest).2.length =
       wRequest.accounts.length * (wRequest.number_of_emails.toNat * 2)) :=
  ⟨by decide, fun _ => rfl,
   spec_claim_C4 emailOkAll svcOkAll dAll rnd0 wRequest (by decide) (fun _ => rfl)⟩

/-- An oracle that fails (call failure or unparsable output, `str(e)` =
"boom") exactly on the formal-tone prompt of step `i` for `wAccount` in a
2-step campaign, and succeeds elsewhere. -/
def svcFailAt (i : Nat) : Svc := fun p =>
  if p = buildPrompt wAccount i 2 "formal" then Except.error "boom"
  else Except.ok wData

/-- The error detail `generate_campaigns` produces when a variant-level
failure with `str(e)` = "boom" occurs for account "Acme" — whichever step
fails. -/
def cexMsg : String :=
  "Error generating campaigns: 500: Error generating campaign for Acme: 500: Error generating email variant: boom"

set_option maxRecDepth 10000 in
/-- C5 counterexample: the claim says the generation error names the
offending account and the offending step.  It does not name the step: a
failure at step 1 and a failure at step 2 of the same 2-step request
produce the *identical* error message `cexMsg`, so the message cannot
identify the offending step.  (`svcFailAt 2` succeeds on the step-1
formal prompt and fails on the step-2 formal prompt, i.e. the failure it
causes really is at step 2.) -/
theorem spec_claim_C5_counterexample :
    (generate_campaigns (svcFailAt 1) rnd0 wRequest).1 = Except.error cexMsg ∧
    (generate_campaigns (svcFailAt 2) rnd0 wRequest).1 = Except.error cexMsg ∧
    svcFailAt 2 (buildPrompt wAccount 1 2 "formal") = Except.ok wData ∧
    svcFailAt 2 (buildPrompt wAccount 2 2 "formal") = Except.error "boom" :=
  ⟨rfl, rfl, rfl, rfl⟩

/-- C5 (amended): when generation fails, the error message carries the
name of the offending account (wrapped as in src/main.py lines 141 and
165); the offending step is not part of the message. -/
theorem spec_claim_C5 (svc : Svc) (rnd : Nat → Nat → String)
    (r : CampaignRequest) (m : String)
    (h : (generate_campaigns svc rnd r).1 = Except.error m) :
    ∃ a ∈ r.accounts, ∃ e, m = "Error generating campaigns: " ++
      strHTTPExc ("Error generating campaign for " ++ a.account_name ++ ": " ++
        strHTTPExc e) :=
  generate_campaigns_error_shape svc rnd r m h

set_option maxRecDepth 10000 in
/-- Witness for the amended C5 at a concrete failing run. -/
theorem spec_claim_C5_witness :
    (generate_campaigns (svcFailAt 1) rnd0 wRequest).1 = Except.error cexMsg ∧
    (∃ a ∈ wRequest.accounts, ∃ e, cexMsg = "Error generating campaigns: " ++
      strHTTPExc ("Error generating campaign for " ++ a.account_name ++ ": " ++
        strHTTPExc e)) :=
  ⟨rfl, spec_claim_C5 (svcFailAt 1) rnd0 wRequest cexMsg rfl⟩

/-- C6 (amended): for every process environment and clock reading, the
health operation returns HTTP 200 with a payload containing status,
timestamp, version and the `cohere_api_configured` flag — but the flag is
the constant `true` (src/main.py line 230), independent of whether the
API key is configured. -/
theorem spec_claim_C6 (env : String → Option String) (now : String) :
    health_check env now = (200, ⟨"healthy", now, "1.0.0", true⟩) := rfl

/-- C6 counterexample: in an environment with no API key configured, the
flag is still `true`, refuting "true exactly when the key is present". -/
theorem spec_claim_C6_counterexample :
    (health_check (fun _ => none) "2026-01-01T00:00:00").2.cohere_api_configured
      = true ∧
    cohereKeyConfigured (fun _ => none) = false :=
  ⟨rfl, rfl⟩

/-- C7: every request with 0 accounts, 11 accounts, an account with 0
pain points, 6 pain points or 0 contacts, or `number_of_emails` outside
[1,10], is rejected by request validation with a validation error, with
no external generation call made (empty call trace). -/
theorem spec_claim_C7 (emailOk : String → Bool) (svc : Svc)
    (rnd : Nat → Nat → String) (r : CampaignRequest)
    (h : r.accounts.length = 0 ∨ r.accounts.length = 11 ∨
      (∃ a ∈ r.accounts, a.pain_points.length = 0 ∨ a.pain_points.length = 6 ∨
        a.contacts.length = 0) ∨
      r.number_of_emails < 1 ∨ 10 < r.number_of_emails) :
    postGenerateCampaigns emailOk svc rnd r = (Except.error validationError, []) := by
  have hf := validB_false_of_boundary emailOk r h
  simp [postGenerateCampaigns, hf]

/-- A request with zero accounts. -/
def wBadRequest : CampaignRequest := ⟨[], 2⟩

/-- Witness for C7 at the zero-accounts request. -/
theorem spec_claim_C7_witness :
    wBadRequest.accounts.length = 0 ∧
    postGenerateCampaigns emailOkAll svcOkAll rnd0 wBadRequest =
      (Except.error validationError, []) :=
  ⟨rfl, spec_claim_C7 emailOkAll svcOkAll rnd0 wBadRequest (Or.inl rfl)⟩

/-- C8: on a valid request, if any single external generation call fails
(or its output cannot be parsed into the 3 required fields — both are an
oracle error), `generate_campaigns` returns an error and no
CampaignResponse at all: the result is `Except.error`, which carries no
partial campaigns. -/
theorem spec_claim_C8 (emailOk : String → Bool) (svc : Svc)
    (rnd : Nat → Nat → String) (r : CampaignRequest) (p e : String)
    (hv : CampaignRequest.validB emailOk r = true)
    (hp : p ∈ canonicalPrompts r) (hf : svc p = Except.error e) :
    ∃ msg, (generate_campaigns svc rnd r).1 = Except.error msg := by
  cases hres : (generate_campaigns svc rnd r).1 with
  | error m => exact ⟨m, rfl⟩
  | ok resp =>
    exfalso
    obtain ⟨dd, hdd⟩ := generate_campaigns_ok_svc svc rnd r resp hres p hp
    rw [hf] at hdd
    exact Except.noConfusion hdd

set_option maxRecDepth 10000 in
/-- Witness for C8 at a concrete run failing on its first call. -/
theorem spec_claim_C8_witness :
    CampaignRequest.validB emailOkAll wRequest = true ∧
    buildPrompt wAccount 1 2 "formal" ∈ canonicalPrompts wRequest ∧
    svcFailAt 1 (buildPrompt wAccount 1 2 "formal") = Except.error "boom" ∧
    (∃ msg, (generate_campaigns (svcFailAt 1) rnd0 wRequest).1 =
      Except.error msg) :=
  ⟨by decide, by decide, rfl,
   spec_claim_C8 emailOkAll (svcFailAt 1) rnd0 wRequest
     (buildPrompt wAccount 1 2 "formal") "boom" (by decide) (by decide) rfl⟩

/-- C9: in every Email of a successful generation, the variant at
position 1 is built from the formal-tone prompt and the variant at
position 2 from the casual-tone prompt, for every account and step
alike. -/
theorem spec_claim_C9 (svc : Svc) (d : String → EmailData)
    (rnd : Nat → Nat → String) (r : CampaignRequest)
    (hd : ∀ p, svc p = Except.ok (d p)) :
    ∃ resp, (generate_campaigns svc rnd r).1 = Except.ok resp ∧
      ∀ c ∈ resp.campaigns, ∃ a ∈ r.accounts,
        ∀ i ∈ List.range r.number_of_emails.toNat,
          c.emails.get? i = some ⟨[
            mkVariant d (buildPrompt a (i + 1) r.number_of_emails "formal"),
            mkVariant d (buildPrompt a (i + 1) r.number_of_emails "casual")]⟩ := by
  refine ⟨specResponse d r, by rw [generate_campaigns_ok svc d hd], ?_⟩
  intro c hc
  simp only [specResponse, List.mem_map] at hc
  obtain ⟨a, ha, rfl⟩ := hc
  refine ⟨a, ha, ?_⟩
  intro i hi
  rw [List.mem_range] at hi
  simp only [specCampaign, List.get?_map]
  rw [List.get?_range hi]
  simp [tones]

/-- Witness for C9 at a concrete request and an always-succeeding oracle. -/
theorem spec_claim_C9_witness :
    (∀ p, svcOkAll p = Except.ok (dAll p)) ∧
    (∃ resp, (generate_campaigns svcOkAll rnd0 wRequest).1 = Except.ok resp ∧
      ∀ c ∈ resp.campaigns, ∃ a ∈ wRequest.accounts,
        ∀ i ∈ List.range wRequest.number_of_emails.toNat,
          c.emails.get? i = some ⟨[
            mkVariant dAll (buildPrompt a (i + 1) wRequest.number_of_emails "formal"),
            mkVariant dAll (buildPrompt a (i + 1) wRequest.number_of_emails "casual")]⟩) :=
  ⟨fun _ => rfl, spec_claim_C9 svcOkAll dAll rnd0 wRequest (fun _ => rfl)⟩

/-- C10: with the external-service behaviour fixed, the generation result
(response and call trace alike) and the CSV export are unchanged under
any change to the random A/B group draws, contact names and emails, the
contacts after the first (keeping the first contact's job title), and
the account's own `tone` field: two requests with the same
`Account.view` projections and email count produce identical outputs for
any group draws. -/
theorem spec_claim_C10 (emailOk : String → Bool) (svc : Svc)
    (rnd1 rnd2 : Nat → Nat → String) (r1 r2 : CampaignRequest)
    (hv : CampaignRequest.validB emailOk r1 = true)
    (hacc : r1.accounts.map Account.view = r2.accounts.map Account.view)
    (hn : r1.number_of_emails = r2.number_of_emails) :
    generate_campaigns svc rnd1 r1 = generate_campaigns svc rnd2 r2 ∧
    export_campaigns_csv svc rnd1 r1 = export_campaigns_csv svc rnd2 r2 := by
  have hg := generate_campaigns_view svc rnd1 rnd2 r1 r2 hacc hn
  refine ⟨hg, ?_⟩
  unfold export_campaigns_csv
  rw [hg]

/-- `wAccount` with different contact names, emails and groups, an extra
second contact, and a different account `tone` — same view. -/
def wAccountB : Account :=
  ⟨"Acme", "Tech", ["slow sales"],
   [⟨"Sam", "sam@other.org", "CTO", "B"⟩, ⟨"Lee", "lee@xyz.io", "VP Sales", "A"⟩],
   "awareness", "medium", "formal", "English"⟩

/-- The request carrying `wAccountB`. -/
def wRequestB : CampaignRequest := ⟨[wAccountB], 2⟩

/-- A different fixed A/B draw. -/
def rndB : Nat → Nat → String := fun _ _ => "B"

/-- Witness for C10: the two concrete requests differ in contact data,
group draws and account tone but share the view, and produce identical
outputs. -/
theorem spec_claim_C10_witness :
    CampaignRequest.validB emailOkAll wRequest = true ∧
    wRequest.accounts.map Account.view = wRequestB.accounts.map Account.view ∧
    wRequest.number_of_emails = wRequestB.number_of_emails ∧
    (generate_campaigns svcOkAll rnd0 wRequest =
       generate_campaigns svcOkAll rndB wRequestB ∧
     export_campaigns_csv svcOkAll rnd0 wRequest =
       export_campaigns_csv svcOkAll rndB wRequestB) :=
  ⟨by decide, rfl, rfl,
   spec_claim_C10 emailOkAll svcOkAll rnd0 rndB wRequest wRequestB (by decide)
     rfl rfl⟩
